import Mathlib

/-!
Verification of the CentralizadorBackEnd (CogniCare) Node.js backend against
its natural-language specification. The JavaScript sources are shallowly
embedded: pure request/row processing becomes Lean functions over a small
JSON-like value type, the declarative route tables and call tables are
transcribed as Lean lists, and the PostgreSQL pool is treated as an oracle
argument (the backend only observes the rows it returns).
-/

set_option maxRecDepth 10000

namespace CogniCare

/-! ## String utilities (JavaScript string methods used by the services) -/

/-- Lower-cases every character, as the JavaScript method toLowerCase does on
the ASCII/Latin messages this backend compares. -/
def lowerStr (s : String) : String := String.mk (s.data.map Char.toLower)

/-- Whether the pattern occurs at the head of the haystack. -/
def headMatch : List Char → List Char → Bool
  | [], _ => true
  | _ :: _, [] => false
  | p :: ps, h :: hs => p == h && headMatch ps hs

/-- Whether the pattern occurs as a contiguous run inside the haystack. -/
def occursIn (pat : List Char) : List Char → Bool
  | [] => headMatch pat []
  | h :: hs => headMatch pat (h :: hs) || occursIn pat hs

/-- JavaScript s.includes(pat). -/
def strIncludes (s pat : String) : Bool := occursIn pat.data s.data

/-- JavaScript s.startsWith(pat). -/
def strStartsWith (s pat : String) : Bool := headMatch pat.data s.data

/-! ## JavaScript values

Request bodies and database rows are JSON-like values. undefined and null are
identified: the embedded code only ever distinguishes them through truthiness
and typeof-string checks, which agree on the two. -/

/-- A JSON-like JavaScript value. -/
inductive JsV where
  | null
  | bool (b : Bool)
  | num (n : Int)
  | str (s : String)
  | arr (elems : List JsV)
  | obj (fields : List (String × JsV))

/-- JavaScript truthiness of an embedded value. -/
def truthy : JsV → Bool
  | .null => false
  | .bool b => b
  | .num n => n != 0
  | .str s => s != ""
  | .arr _ => true
  | .obj _ => true

/-- Truthiness of an optional string field of a database row (null and the
empty string are falsy). -/
def truthyStr : Option String → Bool
  | none => false
  | some s => s != ""

/-- includes on an optional message; a null message contains nothing. -/
def optIncludes (m : Option String) (pat : String) : Bool :=
  match m with
  | none => false
  | some s => strIncludes s pat

/-- First value bound to a key in an object field list (property read). -/
def getField (fields : List (String × JsV)) (k : String) : Option JsV :=
  match fields with
  | [] => none
  | (k0, v) :: rest => if k0 = k then some v else getField rest k

/-- Sets a key in an object field list: overwrites the first existing binding,
otherwise appends, as JavaScript property assignment does. -/
def setField (fields : List (String × JsV)) (k : String) (v : JsV) :
    List (String × JsV) :=
  match fields with
  | [] => [(k, v)]
  | (k0, v0) :: rest =>
    if k0 = k then (k, v) :: rest else (k0, v0) :: setField rest k v

/-- Object.assign target source: every source field written into the target in
order, so a later source binding for the same key wins. -/
def objAssign (target source : List (String × JsV)) : List (String × JsV) :=
  source.foldl (fun acc kv => setField acc kv.1 kv.2) target

/-- Last value bound to a key in a field list (the binding Object.assign
leaves in place when the list is used as an assignment source). -/
def lastField (fields : List (String × JsV)) (k : String) : Option JsV :=
  match fields with
  | [] => none
  | (k0, v) :: rest =>
    match lastField rest k with
    | some w => some w
    | none => if k0 = k then some v else none

/-- Key list of an object value. -/
def objKeys : JsV → List String
  | .obj fields => fields.map (fun kv => kv.1)
  | _ => []

/-- Whether a value is an array. -/
def esArr : JsV → Bool
  | .arr _ => true
  | _ => false

/-! ## response.util.js -/

/-- The two standard fields every success response starts from. -/
def respuestaBase (message : String) : List (String × JsV) :=
  [("success", JsV.bool true), ("message", JsV.str message)]

/-- sendSuccess (src/utils/response.util.js): builds the JSON response body.
A truthy non-array object argument is merged into the response with
Object.assign; any other truthy argument is stored under a data key; a falsy
argument is dropped. Returns the HTTP status together with the body. -/
def sendSuccess (statusCode : Nat) (message : String) (data : JsV) :
    Nat × List (String × JsV) :=
  let response := respuestaBase message
  let body :=
    if truthy data then
      match data with
      | .obj fields => objAssign response fields
      | d => response ++ [("data", d)]
    else response
  (statusCode, body)

/-- Error value thrown by throwClientError and carried to the global error
handler: message, optional HTTP statusCode, optional driver error code. -/
structure JsError where
  message : String
  statusCode : Option Nat
  code : Option String
deriving DecidableEq

/-- throwClientError (src/utils/response.util.js): an Error with the message
and the given statusCode attached. -/
def throwClientError (message : String) (statusCode : Nat) : JsError :=
  { message := message, statusCode := some statusCode, code := none }

/-! ## Date validation (estudiante.service.js and entrenamientoCognitivo.service.js)

new Date is part of the JavaScript runtime, not of the repository; it is
modelled after the ECMA-262 Date Time String Format as the major engines
implement it: a component out of calendar range makes the whole string parse
to an Invalid Date, it is never rolled over. -/

/-- Days of each month in the proleptic Gregorian calendar ECMAScript uses. -/
def diasEnMes (y m : Nat) : Nat :=
  if m = 2 then (if y % 4 = 0 && (y % 100 != 0 || y % 400 = 0) then 29 else 28)
  else if m = 4 || m = 6 || m = 9 || m = 11 then 30
  else 31

/-- Numeric value of a decimal digit character. -/
def digitVal (c : Char) : Nat := c.toNat - '0'.toNat

/-- Value of a list of decimal digit characters. -/
def digitsToNat (cs : List Char) : Nat := cs.foldl (fun a c => 10 * a + digitVal c) 0

/-- Test of the anchored regular expression for the YYYY-MM-DD shape. -/
def formaFechaISO (s : String) : Bool :=
  match s.data with
  | [y1, y2, y3, y4, g1, m1, m2, g2, d1, d2] =>
    y1.isDigit && y2.isDigit && y3.isDigit && y4.isDigit && g1 == '-' &&
    m1.isDigit && m2.isDigit && g2 == '-' && d1.isDigit && d2.isDigit
  | _ => false

/-- Model of new Date(s) for a date-only string of the YYYY-MM-DD shape: the
parse succeeds exactly when month and day are in calendar range, yielding the
UTC (year, month, day) fields of the date. -/
def parseFechaISO (s : String) : Option (Nat × Nat × Nat) :=
  if formaFechaISO s then
    match s.data with
    | [y1, y2, y3, y4, _, m1, m2, _, d1, d2] =>
      let y := digitsToNat [y1, y2, y3, y4]
      let m := digitsToNat [m1, m2]
      let d := digitsToNat [d1, d2]
      if 1 ≤ m && m ≤ 12 && 1 ≤ d && d ≤ diasEnMes y m then some (y, m, d) else none
    | _ => none
  else none

/-- Zero-padded two-digit rendering of a date component. -/
def pad2 (n : Nat) : String := if n < 10 then "0" ++ toString n else toString n

/-- Zero-padded four-digit rendering of a year in 0..9999. -/
def pad4 (n : Nat) : String :=
  if n < 10 then "000" ++ toString n
  else if n < 100 then "00" ++ toString n
  else if n < 1000 then "0" ++ toString n
  else toString n

/-- toISOString().slice(0, 10) of a parsed UTC date. -/
def fechaISOslice (y m d : Nat) : String := pad4 y ++ "-" ++ pad2 m ++ "-" ++ pad2 d

/-- isValidDateString (src/services/estudiante.service.js): shape test, parse
validity, and the round-trip of the parsed date through toISOString. -/
def isValidDateString (s : String) : Bool :=
  if !formaFechaISO s then false
  else
    match parseFechaISO s with
    | none => false
    | some (y, m, d) => fechaISOslice y m d == s

/-- Test of the anchored regular expression for the YYYY-MM-DD HH:MM:SS shape. -/
def formaFechaHora (s : String) : Bool :=
  match s.data with
  | [y1, y2, y3, y4, g1, m1, m2, g2, d1, d2, sp, h1, h2, c1, n1, n2, c2, s1, s2] =>
    y1.isDigit && y2.isDigit && y3.isDigit && y4.isDigit && g1 == '-' &&
    m1.isDigit && m2.isDigit && g2 == '-' && d1.isDigit && d2.isDigit &&
    sp == ' ' && h1.isDigit && h2.isDigit && c1 == ':' && n1.isDigit &&
    n2.isDigit && c2 == ':' && s1.isDigit && s2.isDigit
  | _ => false

/-- Model of new Date(s) for the space-separated YYYY-MM-DD HH:MM:SS shape,
which the major engines parse like the ISO form with a T separator: valid when
the date part is calendar-valid and the time components are in range (hours
00-23, or exactly 24:00:00; minutes and seconds 00-59). -/
def parseFechaHora (s : String) : Option (Nat × Nat × Nat × Nat × Nat × Nat) :=
  if formaFechaHora s then
    match s.data with
    | [y1, y2, y3, y4, _, m1, m2, _, d1, d2, _, h1, h2, _, n1, n2, _, s1, s2] =>
      let y := digitsToNat [y1, y2, y3, y4]
      let m := digitsToNat [m1, m2]
      let d := digitsToNat [d1, d2]
      let hh := digitsToNat [h1, h2]
      let mm := digitsToNat [n1, n2]
      let ss := digitsToNat [s1, s2]
      if 1 ≤ m && m ≤ 12 && 1 ≤ d && d ≤ diasEnMes y m &&
         ((hh ≤ 23 && mm ≤ 59 && ss ≤ 59) || (hh = 24 && mm = 0 && ss = 0)) then
        some (y, m, d, hh, mm, ss)
      else none
    | _ => none
  else none

/-- isValidDateTimeString (src/services/entrenamientoCognitivo.service.js):
shape test and parse validity only, with no round-trip normalisation check. -/
def isValidDateTimeString (s : String) : Bool :=
  if !formaFechaHora s then false
  else (parseFechaHora s).isSome

/-! ## entrenamientoCognitivo.service.js: response handling (C1) -/

/-- A typed client error thrown to the controller: message and HTTP status. -/
structure ClientError where
  message : String
  statusCode : Nat
deriving DecidableEq

/-- Row returned by cc.modificarentrenamientocognitivouft, as the model hands
it to the service: the mensaje column may be null. -/
structure FilaModificacion where
  mensaje : Option String
  entrenamientocognitivoid : Option String
  detalles : List String
deriving DecidableEq

/-- manejarRespuestaModificarEntrenamiento
(src/services/entrenamientoCognitivo.service.js, lines 186-202): a truthy
mensaje whose lower-cased text does not include exitosamente is a controlled
error, thrown with 404 when it includes no tiene un entrenamiento and 400
otherwise; every other row is returned unchanged as success. -/
def manejarRespuestaModificarEntrenamiento (fila : FilaModificacion) :
    Except ClientError FilaModificacion :=
  match fila.mensaje with
  | some m =>
    if m != "" && !(strIncludes (lowerStr m) "exitosamente") then
      Except.error
        ⟨m, if strIncludes (lowerStr m) "no tiene un entrenamiento" then 404 else 400⟩
    else Except.ok fila
  | none => Except.ok fila

/-- Result object of crearEntrenamientoCognitivoDB, as reshaped by the model
layer before the service sees it. -/
structure RespuestaCrearDB where
  entrenamientoId : Option String
  mensaje : Option String
  detalles : Option String
deriving DecidableEq

/-- Result the creation service returns to its controller. -/
structure RespuestaServicioCrear where
  success : Bool
  message : Option String
  statusCode : Nat
  data : Option (Option String × Option String × Option String)
deriving DecidableEq

/-- manejarRespuestaCrearEntrenamiento
(src/services/entrenamientoCognitivo.service.js, lines 100-122): a truthy
mensaje including exitosamente is a 201 success carrying the row data;
otherwise the status starts at 400 and becomes 409 when the mensaje includes
ya tiene un entrenamiento (the explicit Error branch also keeps 400). -/
def manejarRespuestaCrearEntrenamiento (r : RespuestaCrearDB) : RespuestaServicioCrear :=
  if truthyStr r.mensaje && optIncludes r.mensaje "exitosamente" then
    { success := true, message := r.mensaje, statusCode := 201,
      data := some (r.entrenamientoId, r.mensaje, r.detalles) }
  else
    let statusCode :=
      if truthyStr r.mensaje && optIncludes r.mensaje "ya tiene un entrenamiento" then 409
      else if truthyStr r.mensaje && optIncludes r.mensaje "Error" then 400
      else 400
    { success := false, message := r.mensaje, statusCode := statusCode, data := none }

/-- The claim sentence for the modify handler, written as the algorithm it
describes: success exactly when the lower-cased message includes
exitosamente, otherwise a 404 or 400 client error. Stated for comparison with
the source function. -/
def respuestaModificarSegunEspecificacion (fila : FilaModificacion) (m : String) :
    Except ClientError FilaModificacion :=
  if strIncludes (lowerStr m) "exitosamente" then Except.ok fila
  else
    Except.error
      ⟨m, if strIncludes (lowerStr m) "no tiene un entrenamiento" then 404 else 400⟩

/-- The claim sentence for the creation handler, written as the algorithm it
describes: 201 exactly when the message includes exitosamente, else 409 when
it includes ya tiene un entrenamiento, else 400. -/
def respuestaCrearSegunEspecificacion (r : RespuestaCrearDB) (m : String) :
    RespuestaServicioCrear :=
  if strIncludes m "exitosamente" then
    { success := true, message := r.mensaje, statusCode := 201,
      data := some (r.entrenamientoId, r.mensaje, r.detalles) }
  else if strIncludes m "ya tiene un entrenamiento" then
    { success := false, message := r.mensaje, statusCode := 409, data := none }
  else
    { success := false, message := r.mensaje, statusCode := 400, data := none }

/-- A row whose mensaje column is the empty string: the database reported
neither success text nor an error text. -/
def filaMensajeVacio : FilaModificacion :=
  { mensaje := some "", entrenamientocognitivoid := none, detalles := [] }

/-! ## Service error re-throwing (C5) -/

/-- Catch block of modificarInformacionEntrenador (entrenador service): an
error that already carries a statusCode is re-thrown as is; any other error is
replaced by a fresh generic Error to which no statusCode is attached. -/
def modificarInformacionEntrenadorRethrow (e : JsError) : JsError :=
  if e.statusCode.isSome then e
  else { message := "Ocurrió un error inesperado en el servidor.",
         statusCode := none, code := none }

/-- Catch block of actualizarGenero (src/services/estudiante.service.js,
lines 279-282): an error with a statusCode is re-thrown; any other error is
replaced by a fresh Error wrapping the message, with no statusCode attached. -/
def actualizarGeneroRethrow (e : JsError) : JsError :=
  if e.statusCode.isSome then e
  else { message := "Error en el servicio al actualizar género: " ++ e.message,
         statusCode := none, code := none }

/-- Catch block of consultarEntrenamientoPorDocumento: statusCode 500 is
attached to an error that lacks one before re-throwing. -/
def consultarEntrenamientoRethrow (e : JsError) : JsError :=
  if e.statusCode.isSome then e else { e with statusCode := some 500 }

/-- Catch block of registrarEstudiante (estudiante service): formatted errors
pass through, anything else becomes a fresh 500 server error. -/
def registrarEstudianteRethrow (e : JsError) : JsError :=
  if e.statusCode.isSome then e
  else { message := "Ocurrió un error inesperado en el servidor.",
         statusCode := some 500, code := none }

/-- An unexpected driver error that carries no HTTP statusCode. -/
def errorSinCodigo : JsError :=
  { message := "connection refused", statusCode := none, code := none }

/-! ## Input validation before database calls (C9) -/

/-- The shared required-string rejection of the service validators: the value
is falsy, is not a string, or is blank after trim. -/
def requiredStringMissing (v : JsV) : Bool :=
  match v with
  | .str s => s.trim = ""
  | _ => true

/-- The optional training-end-date check: a truthy value must be a string of
valid YYYY-MM-DD HH:MM:SS form (the regular expression coerces non-string
values, none of which can take the 19-character shape). -/
def fechaFinInvalida (v : JsV) : Bool :=
  truthy v && !(match v with | .str s => isValidDateTimeString s | _ => false)

/-- Whether the value is a non-empty JavaScript array. -/
def esArregloNoVacio (v : JsV) : Bool :=
  match v with
  | .arr (_ :: _) => true
  | _ => false

/-- Whether some element of the array fails the non-empty-string test
(false on non-arrays; the validator only reaches it on arrays). -/
def tieneElementoNoCadena (v : JsV) : Bool :=
  match v with
  | .arr xs => xs.any requiredStringMissing
  | _ => false

/-- Input of crearNuevoEntrenamientoCognitivo, with the fields still untyped
JavaScript values as the controller passes them. -/
structure DatosCrearEntrenamiento where
  siglaTipoDocEstudiante : JsV
  numeroDocEstudiante : JsV
  siglaTipoDocEntrenador : JsV
  numeroDocEntrenador : JsV
  fechaFinEntrenamiento : JsV
  variablesCognitivas : JsV

/-- validarDatosCrearEntrenamiento
(src/services/entrenamientoCognitivo.service.js, lines 32-65): the checks in
source order, each failure a success:false object with statusCode 400. -/
def validarDatosCrearEntrenamiento (d : DatosCrearEntrenamiento) :
    Option RespuestaServicioCrear :=
  if requiredStringMissing d.siglaTipoDocEstudiante then
    some { success := false,
           message := some "La sigla del tipo de documento del estudiante es requerida.",
           statusCode := 400, data := none }
  else if requiredStringMissing d.numeroDocEstudiante then
    some { success := false,
           message := some "El número de documento del estudiante es requerido.",
           statusCode := 400, data := none }
  else if requiredStringMissing d.siglaTipoDocEntrenador then
    some { success := false,
           message := some "La sigla del tipo de documento del entrenador es requerida.",
           statusCode := 400, data := none }
  else if requiredStringMissing d.numeroDocEntrenador then
    some { success := false,
           message := some "El número de documento del entrenador es requerido.",
           statusCode := 400, data := none }
  else if fechaFinInvalida d.fechaFinEntrenamiento then
    some { success := false,
           message := some "La fecha de fin del entrenamiento debe estar en formato YYYY-MM-DD HH:MM:SS.",
           statusCode := 400, data := none }
  else if !esArregloNoVacio d.variablesCognitivas then
    some { success := false,
           message := some "Se debe especificar al menos una variable cognitiva.",
           statusCode := 400, data := none }
  else if tieneElementoNoCadena d.variablesCognitivas then
    some { success := false,
           message := some "Las variables cognitivas deben ser cadenas de texto no vacías.",
           statusCode := 400, data := none }
  else none

/-- The database calls the two creation services can issue. -/
inductive LlamadaBD where
  | crearEntrenamientoCognitivoDB
  | registrarEntrenamientoAsignacionDB
deriving DecidableEq

/-- crearNuevoEntrenamientoCognitivo
(src/services/entrenamientoCognitivo.service.js, lines 260-286): validation
first, and only when it passes is the database function called (its row is the
oracle argument) and its answer mapped. The second component records the
database calls issued. -/
def crearNuevoEntrenamientoCognitivo (d : DatosCrearEntrenamiento)
    (bd : RespuestaCrearDB) : RespuestaServicioCrear × List LlamadaBD :=
  match validarDatosCrearEntrenamiento d with
  | some err => (err, [])
  | none => (manejarRespuestaCrearEntrenamiento bd, [LlamadaBD.crearEntrenamientoCognitivoDB])

/-- Whether a character is a hexadecimal digit. -/
def esHexDigit (c : Char) : Bool :=
  c.isDigit || ('a' ≤ c && c ≤ 'f') || ('A' ≤ c && c ≤ 'F')

/-- The 8-4-4-4-12 hexadecimal shape of the UUID regular expression. -/
def formaUUID (cs : List Char) : Bool :=
  cs.length = 36 &&
  (cs.enum.all fun p =>
    if p.1 = 8 || p.1 = 13 || p.1 = 18 || p.1 = 23 then p.2 == '-' else esHexDigit p.2)

/-- isValidUUID (src/services/entrenamientoCognitivo.service.js): a string of
the UUID shape. -/
def isValidUUID (v : JsV) : Bool :=
  match v with
  | .str s => formaUUID s.data
  | _ => false

/-- Rendering of a value inside a JavaScript template literal. -/
def jsToString : JsV → String
  | .null => "null"
  | .bool b => cond b "true" "false"
  | .num n => toString n
  | .str s => s
  | .arr xs => String.intercalate "," (xs.attach.map fun x => jsToString x.1)
  | .obj _ => "[object Object]"
decreasing_by
  have h := List.sizeOf_lt_of_mem x.2
  simp only [JsV.arr.sizeOf_spec]
  omega

/-- Result the registration service returns to its controller. -/
structure RespuestaAsignacion where
  success : Bool
  message : String
  statusCode : Nat
deriving DecidableEq

/-- Input of registrarNuevaAsignacionService. -/
structure DatosAsignacion where
  estudianteId : JsV
  fechaInicio : JsV
  tiposVariablesCognitivasIds : JsV
  nivelInicial : JsV
  metricas : JsV

/-- Whether the value is a plain JSON object (not null, not an array). -/
def esObjetoJSON : JsV → Bool
  | .obj _ => true
  | _ => false

/-- Whether a truthy value is a string in valid YYYY-MM-DD HH:MM:SS form. -/
def esFechaHoraValida (v : JsV) : Bool :=
  match v with
  | .str s => isValidDateTimeString s
  | _ => false

/-- First element of the ids array that is not a valid UUID, in the order the
for-of loop of the service visits them. -/
def primerNoUUID (v : JsV) : Option JsV :=
  match v with
  | .arr xs => xs.find? (fun x => !isValidUUID x)
  | _ => none

/-- The validation prefix of registrarNuevaAsignacionService
(src/services/entrenamientoCognitivo.service.js, lines 309-340): the checks in
source order, each failure a success:false object with statusCode 400. -/
def validarDatosAsignacion (d : DatosAsignacion) : Option RespuestaAsignacion :=
  if !isValidUUID d.estudianteId then
    some ⟨false, "El ID del estudiante es requerido y debe ser un UUID válido.", 400⟩
  else if !esArregloNoVacio d.tiposVariablesCognitivasIds then
    some ⟨false, "Se debe proporcionar al menos un ID de tipo de variable cognitiva en un arreglo.", 400⟩
  else
    match primerNoUUID d.tiposVariablesCognitivasIds with
    | some x =>
      some ⟨false, "El ID de tipo de variable cognitiva \x27" ++ jsToString x ++
                   "\x27 no es un UUID válido.", 400⟩
    | none =>
      if !truthy d.fechaInicio || !esFechaHoraValida d.fechaInicio then
        some ⟨false, "La fecha de inicio es requerida y debe estar en formato YYYY-MM-DD HH:MM:SS.", 400⟩
      else if !esObjetoJSON d.nivelInicial then
        some ⟨false, "El nivel inicial es requerido y debe ser un objeto JSON.", 400⟩
      else if !esObjetoJSON d.metricas then
        some ⟨false, "Las métricas son requeridas y deben ser un objeto JSON.", 400⟩
      else none

/-- registrarNuevaAsignacionService
(src/services/entrenamientoCognitivo.service.js, lines 309-369): validation
first; only when it passes is CC.RegistrarEntrenamientoAsignacionUFS called,
its message (the oracle argument) decides 201 against 400. -/
def registrarNuevaAsignacionService (d : DatosAsignacion) (bdMensaje : Option String) :
    RespuestaAsignacion × List LlamadaBD :=
  match validarDatosAsignacion d with
  | some err => (err, [])
  | none =>
    let r : RespuestaAsignacion :=
      if truthyStr bdMensaje && optIncludes bdMensaje "éxito" then
        { success := true, message := bdMensaje.getD "", statusCode := 201 }
      else
        { success := false,
          message := match bdMensaje with
            | some s => if s != "" then s else "Ocurrió un error en la base de datos."
            | none => "Ocurrió un error en la base de datos.",
          statusCode := 400 }
    (r, [LlamadaBD.registrarEntrenamientoAsignacionDB])

/-- A request body with every field absent. -/
def datosCrearVacios : DatosCrearEntrenamiento :=
  { siglaTipoDocEstudiante := .null, numeroDocEstudiante := .null,
    siglaTipoDocEntrenador := .null, numeroDocEntrenador := .null,
    fechaFinEntrenamiento := .null, variablesCognitivas := .null }

/-- A registration body with every field absent. -/
def datosAsignacionVacios : DatosAsignacion :=
  { estudianteId := .null, fechaInicio := .null, tiposVariablesCognitivasIds := .null,
    nivelInicial := .null, metricas := .null }

/-! ## Session lifecycle (C7)

Modelled from the spec: the session state machine (Por Iniciar → En Progreso →
Finalizado, with Abandono as an alternative terminal state) is encoded and
enforced inside the PL/pgSQL functions CC.CrearSesionEntrenamientoUFT,
CC.IniciarSesionEntrenamientoUFT and CC.FinalizarSesionEntrenamientoUFT, whose
SQL is not part of this repository; the backend only calls them through
crearSesionDB, iniciarSesionDB and finalizarSesionDB. -/

/-- Modelled from the spec: the lifecycle states of a training session. -/
inductive EstadoSesion where
  | porIniciar
  | enProgreso
  | finalizado
  | abandono
deriving DecidableEq

/-- Modelled from the spec: the state-changing session operations the backend
exposes after creation. -/
inductive OperacionSesion where
  | iniciar
  | finalizar
deriving DecidableEq

/-- Modelled from the spec: CC.IniciarSesionEntrenamientoUFT succeeds only on
a session Por Iniciar, moving it to En Progreso. -/
def iniciarSesionUFT : EstadoSesion → Option EstadoSesion
  | .porIniciar => some .enProgreso
  | _ => none

/-- Modelled from the spec: CC.FinalizarSesionEntrenamientoUFT succeeds only
on a session En Progreso, moving it to Finalizado. -/
def finalizarSesionUFT : EstadoSesion → Option EstadoSesion
  | .enProgreso => some .finalizado
  | _ => none

/-- Modelled from the spec: a session CC.CrearSesionEntrenamientoUFT creates
starts Por Iniciar. -/
def estadoSesionNueva : EstadoSesion := .porIniciar

/-- Effect of one exposed operation; none when the database rejects it. -/
def aplicarOperacionSesion : OperacionSesion → EstadoSesion → Option EstadoSesion
  | .iniciar => iniciarSesionUFT
  | .finalizar => finalizarSesionUFT

/-- An observable state change of a session through the exposed operations. -/
def TransicionSesion (s s' : EstadoSesion) : Prop :=
  ∃ op, aplicarOperacionSesion op s = some s'

/-- Runs a list of operation attempts; a rejected operation (the database
function reports failure and the service throws) leaves the state unchanged. -/
def ejecutarOperacionesSesion (ops : List OperacionSesion) (s : EstadoSesion) :
    EstadoSesion :=
  ops.foldl (fun st op => (aplicarOperacionSesion op st).getD st) s

/-! ## The route tables (C2)

Transcription of every route the routers under src/routes register, with the
mount prefixes src/index.js gives them. The middleware chain lists what runs
before the controller; express-validator chains are recorded by the name of
the validator list. -/

/-- A middleware in a route chain. -/
inductive Middleware where
  | verificarToken
  | isAdmin
  | isEntrenador
  | validarParametroUUID (param : String)
  | manejarResultadosValidacion
  | validadores (nombre : String)
deriving DecidableEq

/-- A registered route: HTTP method, mounted path, middleware chain, controller. -/
structure Ruta where
  metodo : String
  ruta : String
  cadena : List Middleware
  controlador : String
deriving DecidableEq

/-- auth.routes.js, mounted at /api. -/
def rutasAuth : List Ruta :=
  [ { metodo := "POST", ruta := "/api/login/admin", cadena := [], controlador := "loginAdmin" },
    { metodo := "POST", ruta := "/api/login/entrenador", cadena := [], controlador := "loginEntrenador" } ]

/-- admin.routes.js, mounted at /api/admin. -/
def rutasAdmin : List Ruta :=
  [ { metodo := "POST", ruta := "/api/admin/entrenadores",
      cadena := [.verificarToken, .isAdmin, .validadores "validacionesRegistroEntrenador", .manejarResultadosValidacion],
      controlador := "registrarEntrenador" },
    { metodo := "GET", ruta := "/api/admin/entrenadores",
      cadena := [.verificarToken, .isAdmin],
      controlador := "listarTodosLosEntrenadores" },
    { metodo := "PUT", ruta := "/api/admin/entrenadores/:entrenadorID",
      cadena := [.verificarToken, .isAdmin, .validadores "validacionesCompletasActualizarEntrenador", .manejarResultadosValidacion],
      controlador := "actualizarInformacionEntrenador" },
    { metodo := "PUT", ruta := "/api/admin/entrenadores/:entrenadorID/desactivar",
      cadena := [.verificarToken, .isAdmin, .validadores "validacionesDesactivarEntrenador", .manejarResultadosValidacion],
      controlador := "desactivarEntrenador" },
    { metodo := "GET", ruta := "/api/admin/informes/entrenamientos",
      cadena := [.verificarToken, .isAdmin],
      controlador := "obtenerListaEntrenamientosAdmin" },
    { metodo := "GET", ruta := "/api/admin/informes/entrenamientos/:entrenamientoId",
      cadena := [.verificarToken, .isAdmin, .validarParametroUUID "entrenamientoId", .manejarResultadosValidacion],
      controlador := "obtenerDetalleInformeAdmin" } ]

/-- tipoDocumento.routes.js, mounted at /api/tipos-documento. -/
def rutasTiposDocumento : List Ruta :=
  [ { metodo := "GET", ruta := "/api/tipos-documento/",
      cadena := [.verificarToken], controlador := "obtenerTiposDocumento" } ]

/-- facultad.routes.js, mounted at /api/facultades. -/
def rutasFacultades : List Ruta :=
  [ { metodo := "GET", ruta := "/api/facultades/",
      cadena := [.verificarToken], controlador := "obtenerFacultades" } ]

/-- entrenamientoCognitivo.routes.js, mounted at /api/entrenamientos-cognitivos. -/
def rutasEntrenamientosCognitivos : List Ruta :=
  [ { metodo := "GET", ruta := "/api/entrenamientos-cognitivos/facultad/:facultadId/estudiantes",
      cadena := [.verificarToken],
      controlador := "obtenerEstudiantesPorFacultadController" },
    { metodo := "POST", ruta := "/api/entrenamientos-cognitivos/estudiante/detalle-entrenamiento",
      cadena := [.verificarToken],
      controlador := "obtenerEntrenamientoEstudiantePorDocumentoController" },
    { metodo := "POST", ruta := "/api/entrenamientos-cognitivos/crear",
      cadena := [.verificarToken],
      controlador := "crearNuevoEntrenamientoCognitivoController" },
    { metodo := "POST", ruta := "/api/entrenamientos-cognitivos/asignacion",
      cadena := [.verificarToken],
      controlador := "registrarEntrenamientoAsignacionController" },
    { metodo := "GET", ruta := "/api/entrenamientos-cognitivos/progreso/:asignacionId",
      cadena := [.verificarToken, .isEntrenador, .validarParametroUUID "asignacionId", .manejarResultadosValidacion],
      controlador := "obtenerProgresoVariableController" },
    { metodo := "PATCH", ruta := "/api/entrenamientos-cognitivos/estudiante/:siglaTipoDocEstudiante/:numeroDocEstudiante",
      cadena := [.verificarToken, .isEntrenador],
      controlador := "modificarEntrenamientoCognitivoController" },
    { metodo := "PUT", ruta := "/api/entrenamientos-cognitivos/sesiones/:idSesion/observacion",
      cadena := [.verificarToken, .isEntrenador, .validarParametroUUID "idSesion", .validadores "validacionesActualizarObservacion", .manejarResultadosValidacion],
      controlador := "actualizarObservacionSesionController" },
    { metodo := "PUT", ruta := "/api/entrenamientos-cognitivos/sesiones/:idSesion/finalizar",
      cadena := [.verificarToken, .isEntrenador, .validarParametroUUID "idSesion", .validadores "validacionesFinalizarSesion", .manejarResultadosValidacion],
      controlador := "finalizarSesionController" },
    { metodo := "PUT", ruta := "/api/entrenamientos-cognitivos/asignaciones/:idAsignacion/finalizar",
      cadena := [.verificarToken, .isEntrenador, .validarParametroUUID "idAsignacion", .manejarResultadosValidacion],
      controlador := "finalizarAsignacionVariableController" } ]

/-- estudiante.routes.js, mounted at /api/estudiantes. -/
def rutasEstudiantes : List Ruta :=
  [ { metodo := "POST", ruta := "/api/estudiantes/",
      cadena := [.verificarToken],
      controlador := "registrarNuevoEstudianteController" },
    { metodo := "GET", ruta := "/api/estudiantes/:siglaTipoDoc/:numeroDoc",
      cadena := [.verificarToken],
      controlador := "obtenerEstudianteController" },
    { metodo := "PUT", ruta := "/api/estudiantes/:siglaTipoDoc/:numeroDoc",
      cadena := [.verificarToken],
      controlador := "modificarEstudianteController" },
    { metodo := "PATCH", ruta := "/api/estudiantes/:id/genero",
      cadena := [.verificarToken, .isEntrenador, .validarParametroUUID "id", .validadores "body nuevoNombreGenero", .manejarResultadosValidacion],
      controlador := "actualizarGeneroEstudiante" } ]

/-- utilidades.routes.js, mounted at /api/utilidades. -/
def rutasUtilidades : List Ruta :=
  [ { metodo := "GET", ruta := "/api/utilidades/generos",
      cadena := [.verificarToken], controlador := "obtenerGenerosController" },
    { metodo := "GET", ruta := "/api/utilidades/tipos-documento",
      cadena := [.verificarToken], controlador := "obtenerTiposDocumentoController" },
    { metodo := "GET", ruta := "/api/utilidades/programas",
      cadena := [.verificarToken], controlador := "obtenerProgramasController" },
    { metodo := "GET", ruta := "/api/utilidades/tipos-variables-cognitivas",
      cadena := [.verificarToken], controlador := "obtenerTiposVariablesCognitivasController" },
    { metodo := "GET", ruta := "/api/utilidades/estudiantes/documento/:tipoDocumento/:numeroDocumento",
      cadena := [.verificarToken], controlador := "obtenerIdEstudiantePorDocumentoController" } ]

/-- entrenador.routes.js, mounted at /api/entrenadores. -/
def rutasEntrenadores : List Ruta :=
  [ { metodo := "GET", ruta := "/api/entrenadores/facultad-entrenador/:correo",
      cadena := [.verificarToken], controlador := "obtenerFacultadesPorEmailController" },
    { metodo := "GET", ruta := "/api/entrenadores/datosporcorreo/:correo",
      cadena := [.verificarToken], controlador := "obtenerDatosPorCorreoController" },
    { metodo := "GET", ruta := "/api/entrenadores/informes",
      cadena := [.verificarToken, .isEntrenador],
      controlador := "obtenerListaEntrenamientosEntrenador" },
    { metodo := "GET", ruta := "/api/entrenadores/informes/:entrenamientoId",
      cadena := [.verificarToken, .isEntrenador, .validarParametroUUID "entrenamientoId", .manejarResultadosValidacion],
      controlador := "obtenerDetalleInformeAdmin" },
    { metodo := "POST", ruta := "/api/entrenadores/asignar-entrenamiento",
      cadena := [.verificarToken],
      controlador := "crearEntrenadorEntrenamientoController" } ]

/-- variablesCognitivas.routes.js, mounted at /api/variables-cognitivas. -/
def rutasVariablesCognitivas : List Ruta :=
  [ { metodo := "PATCH", ruta := "/api/variables-cognitivas/abandonar",
      cadena := [.verificarToken], controlador := "abandonarVariableCognitiva" },
    { metodo := "PATCH", ruta := "/api/variables-cognitivas/reactivar",
      cadena := [.verificarToken], controlador := "reactivarVariableCognitiva" },
    { metodo := "GET", ruta := "/api/variables-cognitivas/nombre/:nombre",
      cadena := [.verificarToken], controlador := "obtenerIdVariableCognitivaPorNombre" } ]

/-- sesion.routes.js, mounted at /api/sesiones. -/
def rutasSesiones : List Ruta :=
  [ { metodo := "POST", ruta := "/api/sesiones/crear",
      cadena := [.verificarToken, .isEntrenador],
      controlador := "crearSesion" },
    { metodo := "POST", ruta := "/api/sesiones/:idSesion/iniciar",
      cadena := [.verificarToken, .isEntrenador, .validarParametroUUID "idSesion", .manejarResultadosValidacion],
      controlador := "iniciarSesion" } ]

/-- Every route the application registers. -/
def todasLasRutas : List Ruta :=
  rutasAuth ++ rutasAdmin ++ rutasTiposDocumento ++ rutasFacultades ++
  rutasEntrenamientosCognitivos ++ rutasEstudiantes ++ rutasUtilidades ++
  rutasEntrenadores ++ rutasVariablesCognitivas ++ rutasSesiones

/-- Whether the chain contains the JWT verification middleware. -/
def tieneVerificarToken (r : Ruta) : Bool := r.cadena.contains .verificarToken

/-- Whether the chain contains a role gate (isAdmin or isEntrenador). -/
def tienePuertaDeRol (r : Ruta) : Bool :=
  r.cadena.contains .isAdmin || r.cadena.contains .isEntrenador

/-- The creation route of the training entity, guarded by the token check
alone. -/
def rutaCrearEntrenamiento : Ruta :=
  { metodo := "POST", ruta := "/api/entrenamientos-cognitivos/crear",
    cadena := [.verificarToken],
    controlador := "crearNuevoEntrenamientoCognitivoController" }

/-! ## The controller call table (C3)

Transcription of the backend function every controller present under src
invokes, with the layer it belongs to. Each list holds the service- or
data-access calls of that controller in source order. -/

/-- A function a controller invokes, tagged with its layer. -/
inductive FuncionInvocada where
  | servicio (nombre : String)
  | modelo (nombre : String)
deriving DecidableEq

/-- A controller and the backend functions it calls. -/
structure Controlador where
  nombre : String
  invocaciones : List FuncionInvocada
deriving DecidableEq

/-- The controller that reads students of a faculty: it imports
obtenerEstudiantesPorFacultad from the model module and calls it directly. -/
def controladorEstudiantesPorFacultad : Controlador :=
  ⟨"obtenerEstudiantesPorFacultadController", [.modelo "obtenerEstudiantesPorFacultad"]⟩

/-- Every controller of the repository with its calls. -/
def controladores : List Controlador :=
  [ ⟨"registrarEntrenador", [.servicio "registrarEntrenador"]⟩,
    ⟨"listarTodosLosEntrenadores", [.servicio "obtenerListaCompletaEntrenadores"]⟩,
    ⟨"actualizarInformacionEntrenador", [.servicio "modificarInformacionEntrenador"]⟩,
    ⟨"desactivarEntrenador", [.servicio "desactivarEntrenador"]⟩,
    ⟨"obtenerFacultadesPorEmailController", [.servicio "obtenerFacultadesPorEmailService"]⟩,
    ⟨"obtenerDatosPorCorreoController", [.servicio "obtenerDatosPorCorreoService"]⟩,
    ⟨"crearEntrenadorEntrenamientoController", [.servicio "crearEntrenadorEntrenamientoService"]⟩,
    controladorEstudiantesPorFacultad,
    ⟨"obtenerEntrenamientoEstudiantePorDocumentoController", [.servicio "consultarEntrenamientoPorDocumento"]⟩,
    ⟨"crearNuevoEntrenamientoCognitivoController", [.servicio "crearNuevoEntrenamientoCognitivo"]⟩,
    ⟨"registrarEntrenamientoAsignacionController", [.servicio "registrarNuevaAsignacionService"]⟩,
    ⟨"obtenerProgresoVariableController", [.servicio "consultarProgresoVariable"]⟩,
    ⟨"actualizarObservacionSesionController", [.servicio "actualizarObservacionSesion"]⟩,
    ⟨"modificarEntrenamientoCognitivoController", [.servicio "modificarEntrenamientoCognitivo"]⟩,
    ⟨"finalizarSesionController", [.servicio "finalizarSesion"]⟩,
    ⟨"finalizarAsignacionVariableController", [.servicio "finalizarAsignacionVariable"]⟩,
    ⟨"obtenerListaEntrenamientosAdmin", [.servicio "listarEntrenamientosParaAdmin"]⟩,
    ⟨"obtenerDetalleInformeAdmin", [.servicio "obtenerDetallesDeInformePorId"]⟩,
    ⟨"obtenerListaEntrenamientosEntrenador", [.servicio "listarEntrenamientosEntrenador"]⟩,
    ⟨"obtenerGenerosController", [.servicio "listarTodosGenerosService"]⟩,
    ⟨"obtenerTiposDocumentoController", [.servicio "listarTodosTiposDocumentoService"]⟩,
    ⟨"obtenerProgramasController", [.servicio "listarTodosProgramasService"]⟩,
    ⟨"obtenerTiposVariablesCognitivasController", [.servicio "listarTiposVariablesCognitivasService"]⟩,
    ⟨"obtenerIdEstudiantePorDocumentoController", [.servicio "obtenerIdEstudiantePorDocumentoService"]⟩,
    ⟨"registrarNuevoEstudianteController", [.servicio "registrarEstudiante"]⟩,
    ⟨"modificarEstudianteController", [.servicio "modificarEstudiante"]⟩,
    ⟨"obtenerEstudianteController", [.servicio "obtenerEstudiantePorDocumento"]⟩,
    ⟨"actualizarGeneroEstudiante", [.servicio "actualizarGenero"]⟩,
    ⟨"crearSesion", [.servicio "crearNuevaSesion"]⟩,
    ⟨"iniciarSesion", [.servicio "iniciarSesion"]⟩,
    ⟨"abandonarVariableCognitiva", [.servicio "abandonarVariableCognitiva"]⟩,
    ⟨"reactivarVariableCognitiva", [.servicio "reactivarVariableCognitiva"]⟩,
    ⟨"obtenerIdVariableCognitivaPorNombre", [.servicio "obtenerIdVariableCognitivaPorNombre"]⟩ ]

/-- Whether a controller makes exactly one call and that call is a service. -/
def llamaUnSoloServicio (c : Controlador) : Bool :=
  match c.invocaciones with
  | [FuncionInvocada.servicio _] => true
  | _ => false

/-! ## The data-access table (C4, C6)

Transcription of every function of the model modules: how many pool.query
calls one invocation makes and the SQL text it sends (whitespace normalised;
obtenerTodos optionally interpolates one WHERE condition into its single
statement when a faculty filter is given). mutadora marks the operations that
create or change rows (the stored transaction functions and the one INSERT);
the plain view/UFS reads are not mutating. -/

/-- A function of the data-access layer. -/
structure FuncionAccesoDatos where
  nombre : String
  consultasPorLlamada : Nat
  sql : String
  mutadora : Bool
deriving DecidableEq

/-- The INSERT-based data-access function of entrenador.model.js. -/
def accesoCrearEntrenadorEntrenamiento : FuncionAccesoDatos :=
  { nombre := "crearEntrenadorEntrenamiento", consultasPorLlamada := 1,
    sql := "INSERT INTO CC.entrenadorentrenamiento (id, entrenador, entrenamientocognitivo) VALUES (gen_random_uuid(), $1, $2) RETURNING id, entrenador, entrenamientocognitivo;",
    mutadora := true }

/-- Every function of the data-access layer. -/
def funcionesAccesoDatos : List FuncionAccesoDatos :=
  [ { nombre := "obtenerEstudiantesPorFacultad", consultasPorLlamada := 1,
      sql := "SELECT * FROM CC.obtenerestudiantesporfacultaduft($1);", mutadora := false },
    { nombre := "obtenerEntrenamientoCognitivoPorDocumento", consultasPorLlamada := 1,
      sql := "SELECT * FROM CC.DetalleEntrenamientoEstudianteUV WHERE \"estudianteTipoDocumento\" = $1 AND \"estudianteNumeroDocumento\" = $2;",
      mutadora := false },
    { nombre := "crearEntrenamientoCognitivoDB", consultasPorLlamada := 1,
      sql := "SELECT * FROM CC.CrearEntrenamientoCognitivoUFT($1, $2, $3, $4, $5, $6);", mutadora := true },
    { nombre := "registrarEntrenamientoAsignacionDB", consultasPorLlamada := 1,
      sql := "SELECT CC.RegistrarEntrenamientoAsignacionUFS($1::UUID, $2::TIMESTAMP, $3::UUID[], $4::JSONB, $5::JSONB) as mensaje;",
      mutadora := true },
    { nombre := "obtenerProgresoVariablePorId", consultasPorLlamada := 1,
      sql := "SELECT * FROM CC.ProgresoVariableUV WHERE \"asignacionVariableId\" = $1;", mutadora := false },
    { nombre := "actualizarObservacionSesionDB", consultasPorLlamada := 1,
      sql := "SELECT * FROM CC.ActualizarObservacionSesionUFT($1, $2);", mutadora := true },
    { nombre := "modificarEntrenamientoCognitivoDB", consultasPorLlamada := 1,
      sql := "SELECT * FROM cc.modificarentrenamientocognitivouft($1, $2, $3, $4, $5, $6, $7);", mutadora := true },
    { nombre := "crearSesionDB", consultasPorLlamada := 1,
      sql := "SELECT * FROM CC.CrearSesionEntrenamientoUFT($1, $2, $3, $4, $5);", mutadora := true },
    { nombre := "iniciarSesionDB", consultasPorLlamada := 1,
      sql := "SELECT * FROM CC.IniciarSesionEntrenamientoUFT($1);", mutadora := true },
    { nombre := "finalizarSesionDB", consultasPorLlamada := 1,
      sql := "SELECT * FROM CC.FinalizarSesionEntrenamientoUFT($1, $2, $3);", mutadora := true },
    { nombre := "finalizarAsignacionVariableDB", consultasPorLlamada := 1,
      sql := "SELECT * FROM CC.FinalizarAsignacionVariableUFT($1);", mutadora := true },
    { nombre := "abandonarVariableCognitiva", consultasPorLlamada := 1,
      sql := "SELECT * FROM cc.abandonarvariablecognitivauft($1, $2, $3)", mutadora := true },
    { nombre := "reactivarVariableCognitiva", consultasPorLlamada := 1,
      sql := "SELECT * FROM cc.reactivarvariablecognitivauft($1, $2, $3)", mutadora := true },
    { nombre := "obtenerIdVariableCognitivaPorNombre", consultasPorLlamada := 1,
      sql := "SELECT id FROM CC.variablecognitiva WHERE nombre = $1", mutadora := false },
    { nombre := "registrarEstudianteDB", consultasPorLlamada := 1,
      sql := "SELECT * FROM CC.registrarestudianteuft($1, $2, $3, $4, $5, $6, $7, $8);", mutadora := true },
    { nombre := "modificarInformacionEstudiante", consultasPorLlamada := 1,
      sql := "SELECT * FROM CC.modificarinformacionestudianteuft($1, $2, $3, $4, $5, $6, $7, $8);", mutadora := true },
    { nombre := "obtenerInformacionCompleta", consultasPorLlamada := 1,
      sql := "SELECT * FROM cc.obtenerinformacioncompletaestudianteufs($1, $2);", mutadora := false },
    { nombre := "actualizarGenero", consultasPorLlamada := 1,
      sql := "SELECT * FROM CC.ActualizarGeneroEstudianteUFT($1, $2);", mutadora := true },
    { nombre := "registrar", consultasPorLlamada := 1,
      sql := "SELECT * FROM CC.RegistrarEntrenadorUFT($1, $2, $3, $4, $5, $6, $7);", mutadora := true },
    { nombre := "obtenerTodos", consultasPorLlamada := 1,
      sql := "SELECT * FROM CC.DetalleEntrenadoresFacultadesUV ORDER BY apellidosEntrenador, nombresEntrenador;",
      mutadora := false },
    { nombre := "actualizar", consultasPorLlamada := 1,
      sql := "SELECT * FROM CC.ModificarInformacionEntrenadorUFT($1, $2, $3, $4, $5, $6);", mutadora := true },
    { nombre := "desactivar", consultasPorLlamada := 1,
      sql := "SELECT * FROM CC.DesactivarEntrenadorUFT($1);", mutadora := true },
    { nombre := "obtenerFacultadesPorEmailDB", consultasPorLlamada := 1,
      sql := "SELECT * FROM CC.ObtenerEntrenadorPorEmailUFT($1);", mutadora := false },
    { nombre := "obtenerDatosPorCorreo", consultasPorLlamada := 1,
      sql := "SELECT e.numerodocumento, td.sigla as siglaTipoDocumento, e.nombres, e.apellidos FROM CC.entrenador e INNER JOIN CC.tipodocumento td ON e.tipodocumento = td.id WHERE e.correo = $1;",
      mutadora := false },
    accesoCrearEntrenadorEntrenamiento,
    { nombre := "obtenerListaEntrenamientosAdmin", consultasPorLlamada := 1,
      sql := "SELECT * FROM CC.AdminListaEntrenamientosUV ORDER BY fechainicioentrenamiento DESC, estudianteapellidos, estudiantenombres;",
      mutadora := false },
    { nombre := "obtenerDetalleInformeEntrenamiento", consultasPorLlamada := 1,
      sql := "SELECT * FROM CC.InformeVariablesFinalizadasPorEntrenamientoUV WHERE entrenamientoId = $1 ORDER BY variablecognitivanombre;",
      mutadora := false },
    { nombre := "obtenerListaEntrenamientosEntrenador", consultasPorLlamada := 1,
      sql := "SELECT * FROM CC.EntrenadorInformesPorFacultadUV WHERE entrenadorId = $1;", mutadora := false },
    { nombre := "obtenerIdTipoDocumentoPorSigla", consultasPorLlamada := 1,
      sql := "SELECT id FROM CC.obteneridtipodocumentoporsiglaufs($1);", mutadora := false },
    { nombre := "obtenerIdGeneroPorNombre", consultasPorLlamada := 1,
      sql := "SELECT id FROM CC.obtenergeneropornombreuft($1);", mutadora := false },
    { nombre := "obtenerTodosLosGeneros", consultasPorLlamada := 1,
      sql := "SELECT * FROM CC.VistaGenerosUV;", mutadora := false },
    { nombre := "obtenerTodosLosTiposDocumento", consultasPorLlamada := 1,
      sql := "SELECT * FROM CC.VistaSiglasTipoDocumentoUV;", mutadora := false },
    { nombre := "obtenerTodosLosProgramas", consultasPorLlamada := 1,
      sql := "SELECT * FROM CC.VistaNombresProgramaUV;", mutadora := false },
    { nombre := "obtenerTiposVariablesCognitivasDB", consultasPorLlamada := 1,
      sql := "SELECT * FROM CC.ObtenerEntrenamientoCognitivosUV;", mutadora := false },
    { nombre := "obtenerIdEstudiantePorDocumentoDB", consultasPorLlamada := 1,
      sql := "SELECT CC.obteneridestudiantepordocumentoufs($1, $2) AS estudiante_id;", mutadora := false } ]

/-- The mutating operations of the data-access layer. -/
def operacionesMutadoras : List FuncionAccesoDatos :=
  funcionesAccesoDatos.filter (fun f => f.mutadora)

/-- Whether a SQL text is a SELECT over a CC-schema stored function (the UFT
and UFS names of the spec). -/
def esLlamadaFuncionAlmacenada (sql : String) : Bool :=
  strStartsWith (lowerStr sql) "select" &&
  occursIn "cc.".data (lowerStr sql).data &&
  (occursIn "uft(".data (lowerStr sql).data || occursIn "ufs(".data (lowerStr sql).data)

/-- Whether a SQL text is a raw INSERT, UPDATE or DELETE statement. -/
def esDMLcrudo (sql : String) : Bool :=
  strStartsWith (lowerStr sql) "insert" || strStartsWith (lowerStr sql) "update" ||
  strStartsWith (lowerStr sql) "delete"

/-! ## Row post-processing of the data-access layer (C4) -/

/-- A database row, as the pg driver hands it over. -/
abbrev Fila := List (String × JsV)

/-- What a data-access function that returns the raw rows hands to its caller
(obtenerEstudiantesPorFacultad and the other pass-through readers). -/
def filasCrudas (filas : List Fila) : JsV := .arr (filas.map .obj)

/-- Row post-processing of obtenerDatosPorCorreo (entrenador.model.js, lines
291-322): the first row is rebuilt into an object with camelCase keys; with no
rows the function returns null. -/
def obtenerDatosPorCorreoResultado (filas : List Fila) : JsV :=
  match filas with
  | [] => .null
  | r :: _ =>
    .obj [("numeroDocumento", (getField r "numerodocumento").getD .null),
          ("siglaTipoDocumento", (getField r "siglatipodocumento").getD .null),
          ("nombres", (getField r "nombres").getD .null),
          ("apellidos", (getField r "apellidos").getD .null)]

/-- Row post-processing of crearEntrenamientoCognitivoDB
(estudiantesEntrenamientos.model.js, lines 217-253): destructured columns
wrapped into a fresh object, the id column renamed entrenamientoId; an empty
result throws. -/
def crearEntrenamientoCognitivoDBResultado (filas : List Fila) : Except String JsV :=
  match filas with
  | [] => .error "La función de base de datos no devolvió un resultado esperado."
  | r :: _ =>
    .ok (.obj [("entrenamientoId", (getField r "entrenamientocognitivoid").getD .null),
               ("mensaje", (getField r "mensaje").getD .null),
               ("detalles", (getField r "detalles").getD .null)])

/-- A row the obtenerDatosPorCorreo join can return. -/
def filaCorreoEjemplo : Fila :=
  [("numerodocumento", .str "123456789"), ("siglatipodocumento", .str "CC"),
   ("nombres", .str "Ana"), ("apellidos", .str "Diaz")]

/-- A row whose mensaje reports a successful modification. -/
def filaExitosa : FilaModificacion :=
  { mensaje := some "Entrenamiento modificado exitosamente",
    entrenamientocognitivoid := some "2e67debb-69cc-47bc-b960-b57d6a7ec906",
    detalles := [] }

/-- A database answer reporting a successful creation. -/
def respuestaBDEjemplo : RespuestaCrearDB :=
  { entrenamientoId := some "2e67debb-69cc-47bc-b960-b57d6a7ec906",
    mensaje := some "Entrenamiento cognitivo creado exitosamente", detalles := none }

/-- The validation failure the empty creation body produces. -/
def errorValidacionCrear : RespuestaServicioCrear :=
  { success := false,
    message := some "La sigla del tipo de documento del estudiante es requerida.",
    statusCode := 400, data := none }

/-- The validation failure the empty registration body produces. -/
def errorValidacionAsignacion : RespuestaAsignacion :=
  ⟨false, "El ID del estudiante es requerido y debe ser un UUID válido.", 400⟩

/-! ## Lemmas about object field assignment -/

theorem getField_setField (t : List (String × JsV)) (k : String) (v : JsV) (q : String) :
    getField (setField t k v) q = if k = q then some v else getField t q := by
  induction t with
  | nil => simp [setField, getField]
  | cons hd tl ih =>
    obtain ⟨k0, v0⟩ := hd
    simp only [setField]
    by_cases h : k0 = k
    · subst h
      simp only [if_pos rfl, getField]
      by_cases hq : k0 = q <;> simp [hq]
    · rw [if_neg h]
      by_cases h1 : k0 = q <;> by_cases h2 : k = q
      · exact absurd (h1.trans h2.symm) h
      · simp [getField, ih, h1, h2]
      · subst h2
        simp [getField, ih, h1]
      · simp [getField, ih, h1, h2]

theorem getField_objAssign (s t : List (String × JsV)) (q : String) :
    getField (objAssign t s) q =
      match lastField s q with
      | some w => some w
      | none => getField t q := by
  induction s generalizing t with
  | nil => simp [objAssign, lastField]
  | cons hd tl ih =>
    obtain ⟨k0, v0⟩ := hd
    have hstep : objAssign t ((k0, v0) :: tl) = objAssign (setField t k0 v0) tl := rfl
    rw [hstep, ih]
    cases h : lastField tl q with
    | some w => simp [lastField, h]
    | none =>
      simp only [lastField, h]
      rw [getField_setField]
      by_cases hq : k0 = q <;> simp [hq]

/-! ## Session lifecycle invariant -/

theorem ejecutarOperacionesSesion_en_ciclo (ops : List OperacionSesion)
    (s : EstadoSesion)
    (hs : s = EstadoSesion.porIniciar ∨ s = EstadoSesion.enProgreso ∨
          s = EstadoSesion.finalizado) :
    ejecutarOperacionesSesion ops s = EstadoSesion.porIniciar ∨
    ejecutarOperacionesSesion ops s = EstadoSesion.enProgreso ∨
    ejecutarOperacionesSesion ops s = EstadoSesion.finalizado := by
  induction ops generalizing s with
  | nil => simpa [ejecutarOperacionesSesion] using hs
  | cons op tl ih =>
    have hstep : ejecutarOperacionesSesion (op :: tl) s =
        ejecutarOperacionesSesion tl ((aplicarOperacionSesion op s).getD s) := rfl
    rw [hstep]
    apply ih
    rcases hs with h | h | h <;> subst h <;> cases op <;>
      simp [aplicarOperacionSesion, iniciarSesionUFT, finalizarSesionUFT]

/-! ## The claims -/

/-- C8: sendSuccess merges a truthy non-array object argument into the top
level of the body, where a success or message key of the argument overwrites
the standard field (the last binding of the argument wins); a truthy array or
primitive goes under a data key; a falsy argument (null, false, 0, the empty
string) is omitted entirely. -/
theorem C8_sendSuccess_forma_del_cuerpo :
    (∀ st m fs, (sendSuccess st m (.obj fs)).2 = objAssign (respuestaBase m) fs)
    ∧ (∀ st m fs, getField (sendSuccess st m (.obj fs)).2 "success" =
        some ((lastField fs "success").getD (JsV.bool true)))
    ∧ (∀ st m fs, getField (sendSuccess st m (.obj fs)).2 "message" =
        some ((lastField fs "message").getD (JsV.str m)))
    ∧ (∀ st m xs, (sendSuccess st m (.arr xs)).2 = respuestaBase m ++ [("data", JsV.arr xs)])
    ∧ (∀ st m s, (sendSuccess st m (.str s)).2 =
        if s = "" then respuestaBase m else respuestaBase m ++ [("data", JsV.str s)])
    ∧ (∀ st m n, (sendSuccess st m (.num n)).2 =
        if n = 0 then respuestaBase m else respuestaBase m ++ [("data", JsV.num n)])
    ∧ (∀ st m b, (sendSuccess st m (.bool b)).2 =
        if b then respuestaBase m ++ [("data", JsV.bool b)] else respuestaBase m)
    ∧ (∀ st m, (sendSuccess st m .null).2 = respuestaBase m) := by
  refine ⟨fun st m fs => rfl, ?_, ?_, fun st m xs => rfl, ?_, ?_, ?_, fun st m => rfl⟩
  · intro st m fs
    show getField (objAssign (respuestaBase m) fs) "success" = _
    rw [getField_objAssign]
    cases h : lastField fs "success" <;> simp [respuestaBase, getField]
  · intro st m fs
    show getField (objAssign (respuestaBase m) fs) "message" = _
    rw [getField_objAssign]
    cases h : lastField fs "message" <;> simp [respuestaBase, getField]
  · intro st m s
    by_cases h : s = "" <;> simp [sendSuccess, truthy, h, respuestaBase]
  · intro st m n
    by_cases h : n = 0 <;> simp [sendSuccess, truthy, h, respuestaBase]
  · intro st m b
    cases b <;> simp [sendSuccess, truthy, respuestaBase]

/-- C1 counterexample: a row whose mensaje column is the empty string is
returned as success by manejarRespuestaModificarEntrenamiento although its
lower-cased message does not contain exitosamente; the claim, read as the
algorithm it states, would have thrown a 400 client error on that row. -/
theorem C1_contraejemplo_mensaje_vacio :
    manejarRespuestaModificarEntrenamiento filaMensajeVacio = Except.ok filaMensajeVacio
    ∧ respuestaModificarSegunEspecificacion filaMensajeVacio "" =
        Except.error { message := "", statusCode := 400 }
    ∧ filaMensajeVacio.mensaje = some ""
    ∧ strIncludes (lowerStr "") "exitosamente" = false :=
  ⟨rfl, rfl, rfl, rfl⟩

/-- C1 amended: for every row carrying a non-empty message the modify handler
behaves exactly as the claim states (success iff the lower-cased message
contains exitosamente, otherwise a client error with 404 for no tiene un
entrenamiento and 400 otherwise), but a row with a null or empty message is
returned as success; the creation handler behaves as the claim states for
every message, and a null message yields a 400 failure. -/
theorem C1_deteccion_por_subcadenas :
    (∀ fila m, fila.mensaje = some m → m ≠ "" →
      manejarRespuestaModificarEntrenamiento fila = respuestaModificarSegunEspecificacion fila m)
    ∧ (∀ fila, truthyStr fila.mensaje = false →
      manejarRespuestaModificarEntrenamiento fila = Except.ok fila)
    ∧ (∀ r m, r.mensaje = some m →
      manejarRespuestaCrearEntrenamiento r = respuestaCrearSegunEspecificacion r m)
    ∧ (∀ r, r.mensaje = none →
      manejarRespuestaCrearEntrenamiento r =
        { success := false, message := none, statusCode := 400, data := none }) := by
  refine ⟨?_, ?_, ?_, ?_⟩
  · intro fila m hm hne
    simp only [manejarRespuestaModificarEntrenamiento, hm,
      respuestaModificarSegunEspecificacion]
    by_cases hs : strIncludes (lowerStr m) "exitosamente" <;> simp [hs, hne, bne]
  · intro fila h
    cases hm : fila.mensaje with
    | none => simp [manejarRespuestaModificarEntrenamiento, hm]
    | some s =>
      rw [hm] at h
      simp only [truthyStr, bne_eq_false_iff_eq] at h
      subst h
      simp [manejarRespuestaModificarEntrenamiento, hm]
  · intro r m hm
    by_cases hm0 : m = ""
    · subst hm0
      simp [manejarRespuestaCrearEntrenamiento, respuestaCrearSegunEspecificacion, hm,
        truthyStr, optIncludes, strIncludes, occursIn, headMatch]
    · by_cases hs1 : strIncludes m "exitosamente" <;>
        by_cases hs2 : strIncludes m "ya tiene un entrenamiento" <;>
        simp [manejarRespuestaCrearEntrenamiento, respuestaCrearSegunEspecificacion, hm,
          truthyStr, optIncludes, hs1, hs2, hm0, bne]
  · intro r hm
    simp [manejarRespuestaCrearEntrenamiento, hm, truthyStr, optIncludes]

/-- C1 witness: the amended theorem applied to a successful modification row
and to the empty-message creation answer. -/
theorem C1_testigo :
    manejarRespuestaModificarEntrenamiento filaExitosa =
      respuestaModificarSegunEspecificacion filaExitosa
        "Entrenamiento modificado exitosamente"
    ∧ manejarRespuestaCrearEntrenamiento respuestaBDEjemplo =
        respuestaCrearSegunEspecificacion respuestaBDEjemplo
          "Entrenamiento cognitivo creado exitosamente" :=
  ⟨C1_deteccion_por_subcadenas.1 filaExitosa _ rfl (by decide),
   C1_deteccion_por_subcadenas.2.2.1 respuestaBDEjemplo _ rfl⟩

/-- C5 counterexample: the catch blocks of modificarInformacionEntrenador and
actualizarGenero replace an unexpected error by a fresh Error to which no
statusCode is attached, so the error re-thrown to the controller carries no
numeric HTTP status. -/
theorem C5_contraejemplo_sin_statusCode :
    (modificarInformacionEntrenadorRethrow errorSinCodigo).statusCode = none
    ∧ (actualizarGeneroRethrow errorSinCodigo).statusCode = none
    ∧ errorSinCodigo.statusCode = none :=
  ⟨rfl, rfl, rfl⟩

/-- C5 amended: throwClientError always attaches the given statusCode, and the
catch blocks of consultarEntrenamientoPorDocumento and registrarEstudiante
always re-throw an error with a statusCode; but modificarInformacionEntrenador
and actualizarGenero propagate the absence of a statusCode, leaving the
default 500 mapping to the global error handler. -/
theorem C5_errores_tipados :
    (∀ m n, (throwClientError m n).statusCode = some n)
    ∧ (∀ e, (consultarEntrenamientoRethrow e).statusCode.isSome = true)
    ∧ (∀ e, (registrarEstudianteRethrow e).statusCode.isSome = true)
    ∧ (∀ e, (modificarInformacionEntrenadorRethrow e).statusCode = e.statusCode)
    ∧ (∀ e, (actualizarGeneroRethrow e).statusCode = e.statusCode) := by
  refine ⟨fun m n => rfl, ?_, ?_, ?_, ?_⟩
  · intro e
    cases he : e.statusCode <;> simp [consultarEntrenamientoRethrow, he]
  · intro e
    cases he : e.statusCode <;> simp [registrarEstudianteRethrow, he]
  · intro e
    cases he : e.statusCode <;> simp [modificarInformacionEntrenadorRethrow, he]
  · intro e
    cases he : e.statusCode <;> simp [actualizarGeneroRethrow, he]

/-- C9: whenever validation of the creation or registration input fails, the
service returns that failure, a success:false object with statusCode 400, and
issues no database call at all, whatever the database would have answered. -/
theorem C9_validacion_antes_de_BD :
    (∀ d bd err, validarDatosCrearEntrenamiento d = some err →
      crearNuevoEntrenamientoCognitivo d bd = (err, [])
      ∧ err.statusCode = 400 ∧ err.success = false)
    ∧ (∀ d msg err, validarDatosAsignacion d = some err →
      registrarNuevaAsignacionService d msg = (err, [])
      ∧ err.statusCode = 400 ∧ err.success = false) := by
  constructor
  · intro d bd err h
    have hcodigo : err.statusCode = 400 ∧ err.success = false := by
      unfold validarDatosCrearEntrenamiento at h
      split_ifs at h <;>
        first
          | exact Option.noConfusion h
          | (injection h with h2; subst h2; exact ⟨rfl, rfl⟩)
    exact ⟨by simp [crearNuevoEntrenamientoCognitivo, h], hcodigo.1, hcodigo.2⟩
  · intro d msg err h
    have hcodigo : err.statusCode = 400 ∧ err.success = false := by
      unfold validarDatosAsignacion at h
      split_ifs at h <;>
        first
          | exact Option.noConfusion h
          | (injection h with h2; subst h2; exact ⟨rfl, rfl⟩)
          | (split at h <;>
              first
                | exact Option.noConfusion h
                | (injection h with h2; subst h2; exact ⟨rfl, rfl⟩))
    exact ⟨by simp [registrarNuevaAsignacionService, h], hcodigo.1, hcodigo.2⟩

/-- C9 witness: the theorem applied to the empty creation body (with a
database oracle that would have reported success) and to the empty
registration body. -/
theorem C9_testigo :
    (crearNuevoEntrenamientoCognitivo datosCrearVacios respuestaBDEjemplo =
        (errorValidacionCrear, [])
      ∧ errorValidacionCrear.statusCode = 400 ∧ errorValidacionCrear.success = false)
    ∧ (registrarNuevaAsignacionService datosAsignacionVacios
          (some "Entrenamiento y asignaciones de variables creados con éxito.") =
        (errorValidacionAsignacion, [])
      ∧ errorValidacionAsignacion.statusCode = 400
      ∧ errorValidacionAsignacion.success = false) :=
  ⟨C9_validacion_antes_de_BD.1 datosCrearVacios respuestaBDEjemplo errorValidacionCrear rfl,
   C9_validacion_antes_de_BD.2 datosAsignacionVacios
     (some "Entrenamiento y asignaciones de variables creados con éxito.")
     errorValidacionAsignacion rfl⟩

/-- C10: isValidDateString accepts a string exactly when it has the
YYYY-MM-DD shape, parses to a valid Date and the parsed date reproduces the
string through toISOString, so the calendar-invalid 2024-02-31 is rejected
while the leap day 2024-02-29 is accepted and 2023-02-29 is not; by contrast
isValidDateTimeString accepts exactly the shape-matching strings that parse to
a valid Date, with no round-trip. -/
theorem C10_validacion_de_fechas :
    (∀ s, isValidDateString s = true ↔
      formaFechaISO s = true ∧
        ∃ y m d, parseFechaISO s = some (y, m, d) ∧ fechaISOslice y m d = s)
    ∧ isValidDateString "2024-02-29" = true
    ∧ isValidDateString "2024-02-31" = false
    ∧ isValidDateString "2023-02-29" = false
    ∧ (∀ s, isValidDateTimeString s = true ↔
      formaFechaHora s = true ∧ (parseFechaHora s).isSome = true)
    ∧ isValidDateTimeString "2024-05-21 10:00:00" = true := by
  refine ⟨?_, by decide, by decide, by decide, ?_, by decide⟩
  · intro s
    unfold isValidDateString
    cases hf : formaFechaISO s with
    | false => simp [hf]
    | true =>
      cases hp : parseFechaISO s with
      | none => simp [hf, hp]
      | some t =>
        obtain ⟨y, m, d⟩ := t
        simp only [hf, hp, Bool.not_true, Bool.false_eq_true, if_false,
          beq_iff_eq, Option.some.injEq, Prod.mk.injEq, true_and]
        constructor
        · intro h
          exact ⟨y, m, d, ⟨rfl, rfl, rfl⟩, h⟩
        · rintro ⟨a, b, c, ⟨rfl, rfl, rfl⟩, h⟩
          exact h
  · intro s
    unfold isValidDateTimeString
    by_cases hf : formaFechaHora s <;> simp [hf]

/-- C7 (modelled from the spec, the state machine lives in the database
functions): the only transitions the exposed session operations can cause are
Por Iniciar to En Progreso (iniciar) and En Progreso to Finalizado
(finalizar); iniciar succeeds exactly on Por Iniciar, finalizar exactly on En
Progreso, and a newly created session can only ever be found in the chain Por
Iniciar, En Progreso, Finalizado. -/
theorem C7_ciclo_de_vida_sesion :
    (∀ s s', TransicionSesion s s' →
      (s = EstadoSesion.porIniciar ∧ s' = EstadoSesion.enProgreso) ∨
      (s = EstadoSesion.enProgreso ∧ s' = EstadoSesion.finalizado))
    ∧ (∀ s, (iniciarSesionUFT s).isSome = true ↔ s = EstadoSesion.porIniciar)
    ∧ (∀ s, (finalizarSesionUFT s).isSome = true ↔ s = EstadoSesion.enProgreso)
    ∧ (∀ ops, ejecutarOperacionesSesion ops estadoSesionNueva = EstadoSesion.porIniciar ∨
        ejecutarOperacionesSesion ops estadoSesionNueva = EstadoSesion.enProgreso ∨
        ejecutarOperacionesSesion ops estadoSesionNueva = EstadoSesion.finalizado) := by
  refine ⟨?_, ?_, ?_, ?_⟩
  · rintro s s' ⟨op, hop⟩
    cases op <;> cases s <;>
      simp_all [aplicarOperacionSesion, iniciarSesionUFT, finalizarSesionUFT]
  · intro s
    cases s <;> simp [iniciarSesionUFT]
  · intro s
    cases s <;> simp [finalizarSesionUFT]
  · intro ops
    exact ejecutarOperacionesSesion_en_ciclo ops estadoSesionNueva (Or.inl rfl)

/-- C2 counterexample: the registered route POST
/api/entrenamientos-cognitivos/crear carries the JWT middleware but no role
gate at all, so not every route chain contains both verificarToken and an
isAdmin or isEntrenador gate. -/
theorem C2_contraejemplo_ruta_sin_rol :
    rutaCrearEntrenamiento ∈ todasLasRutas
    ∧ tieneVerificarToken rutaCrearEntrenamiento = true
    ∧ tienePuertaDeRol rutaCrearEntrenamiento = false := by
  refine ⟨by decide, rfl, rfl⟩

/-- C2 amended: every registered route except the two public login routes
(whose chains are empty) contains verificarToken, the admin router gates every
route with isAdmin and the session router with isEntrenador, but 20 of the 38
routes are guarded by the JWT check alone, with no role gate. -/
theorem C2_autorizacion_por_rutas :
    (todasLasRutas.all fun r => tieneVerificarToken r || rutasAuth.contains r) = true
    ∧ (rutasAuth.all fun r => r.cadena.isEmpty) = true
    ∧ (rutasAdmin.all fun r => r.cadena.contains Middleware.isAdmin) = true
    ∧ (rutasSesiones.all fun r => r.cadena.contains Middleware.isEntrenador) = true
    ∧ todasLasRutas.length = 38
    ∧ (todasLasRutas.filter fun r => tieneVerificarToken r && !tienePuertaDeRol r).length = 20 := by
  refine ⟨by decide, by decide, by decide, by decide, by decide, by decide⟩

/-- C3 counterexample: the controller obtenerEstudiantesPorFacultadController
calls the data-access function obtenerEstudiantesPorFacultad directly, without
any service in between. -/
theorem C3_contraejemplo_controlador_llama_modelo :
    controladorEstudiantesPorFacultad ∈ controladores
    ∧ llamaUnSoloServicio controladorEstudiantesPorFacultad = false
    ∧ controladorEstudiantesPorFacultad.invocaciones =
        [FuncionInvocada.modelo "obtenerEstudiantesPorFacultad"] := by
  refine ⟨by decide, rfl, rfl⟩

/-- C3 amended: every controller extracts its parameters and makes exactly
one backend call, and every controller except
obtenerEstudiantesPorFacultadController makes that call to a single service
function; that one controller calls the data-access layer directly. -/
theorem C3_controladores_llaman_un_servicio :
    (controladores.all fun c => c.invocaciones.length == 1) = true
    ∧ (controladores.filter fun c => !llamaUnSoloServicio c) =
        [controladorEstudiantesPorFacultad] := by
  refine ⟨by decide, by decide⟩

/-- C4 counterexample: obtenerDatosPorCorreo does not return the raw rows of
its query; on a concrete one-row result it returns a rebuilt object whose keys
are renamed to camelCase, not the array of raw rows a pass-through would
give. -/
theorem C4_contraejemplo_filas_remodeladas :
    obtenerDatosPorCorreoResultado [filaCorreoEjemplo] =
      JsV.obj [("numeroDocumento", .str "123456789"), ("siglaTipoDocumento", .str "CC"),
               ("nombres", .str "Ana"), ("apellidos", .str "Diaz")]
    ∧ objKeys (obtenerDatosPorCorreoResultado [filaCorreoEjemplo]) =
        ["numeroDocumento", "siglaTipoDocumento", "nombres", "apellidos"]
    ∧ filaCorreoEjemplo.map Prod.fst =
        ["numerodocumento", "siglatipodocumento", "nombres", "apellidos"]
    ∧ esArr (obtenerDatosPorCorreoResultado [filaCorreoEjemplo]) = false
    ∧ esArr (filasCrudas [filaCorreoEjemplo]) = true :=
  ⟨rfl, rfl, rfl, rfl, rfl⟩

/-- C4 amended: every data-access function issues a single SQL statement per
call, and the plain readers hand the raw row array through unchanged, but the
layer is not uniformly a pass-through: obtenerDatosPorCorreo rebuilds the
first row into an object with renamed keys (null when empty), and
crearEntrenamientoCognitivoDB wraps three columns of the first row into a
fresh object, renaming entrenamientocognitivoid to entrenamientoId. -/
theorem C4_acceso_a_datos :
    (funcionesAccesoDatos.all fun f => f.consultasPorLlamada == 1) = true
    ∧ (∀ filas, filasCrudas filas = JsV.arr (filas.map JsV.obj))
    ∧ obtenerDatosPorCorreoResultado [] = JsV.null
    ∧ (∀ r rest, obtenerDatosPorCorreoResultado (r :: rest) =
        JsV.obj [("numeroDocumento", (getField r "numerodocumento").getD .null),
                 ("siglaTipoDocumento", (getField r "siglatipodocumento").getD .null),
                 ("nombres", (getField r "nombres").getD .null),
                 ("apellidos", (getField r "apellidos").getD .null)])
    ∧ crearEntrenamientoCognitivoDBResultado [] =
        Except.error "La función de base de datos no devolvió un resultado esperado."
    ∧ (∀ r rest, crearEntrenamientoCognitivoDBResultado (r :: rest) =
        Except.ok (JsV.obj
          [("entrenamientoId", (getField r "entrenamientocognitivoid").getD .null),
           ("mensaje", (getField r "mensaje").getD .null),
           ("detalles", (getField r "detalles").getD .null)])) :=
  ⟨by decide, fun filas => rfl, rfl, fun r rest => rfl, rfl, fun r rest => rfl⟩

/-- C6 counterexample: the mutating data-access operation
crearEntrenadorEntrenamiento sends a raw INSERT INTO CC.entrenadorentrenamiento
statement, not a call to a CC-schema stored function. -/
theorem C6_contraejemplo_insert_crudo :
    accesoCrearEntrenadorEntrenamiento ∈ operacionesMutadoras
    ∧ esDMLcrudo accesoCrearEntrenadorEntrenamiento.sql = true
    ∧ esLlamadaFuncionAlmacenada accesoCrearEntrenadorEntrenamiento.sql = false := by
  refine ⟨by decide, by decide, by decide⟩

/-- C6 amended: of the 17 mutating data-access operations, every one except
crearEntrenadorEntrenamiento sends a SELECT over a CC-schema stored function
(UFT/UFS) and none of those is a raw INSERT, UPDATE or DELETE;
crearEntrenadorEntrenamiento alone issues a raw INSERT on a CC table. -/
theorem C6_mutaciones_por_funciones_almacenadas :
    (operacionesMutadoras.filter fun f => !esLlamadaFuncionAlmacenada f.sql) =
        [accesoCrearEntrenadorEntrenamiento]
    ∧ (operacionesMutadoras.filter fun f => esDMLcrudo f.sql) =
        [accesoCrearEntrenadorEntrenamiento]
    ∧ operacionesMutadoras.length = 17 := by
  refine ⟨by decide, by decide, by decide⟩

end CogniCare
